import Mathlib

/-!
Verification of the NMEA2000_esp32 TWAI adapter
(`src/NMEA2000_esp32.cpp`, `src/NMEA2000_esp32.h`).

The adapter is a thin layer between the NMEA2000 base library and the
ESP32 TWAI (CAN) peripheral driver.  We embed its operations shallowly:

* `canIdToN2k` — pure bit decomposition of a 29-bit extended CAN
  identifier into (priority, PGN, source, destination);
* `CANOpen` — the open sequence over the instance's `IsOpen` flag, the
  process-wide static `CanInUse` flag, and a count of driver
  installations performed by `CAN_init`;
* `CANSendFrame` — frame construction plus the interaction with the
  driver, with the driver's status and transmit result supplied as
  inputs and the issued driver commands recorded;
* `CANGetFrame` — the receive path, with the driver's receive outcome
  supplied as an input and the three by-reference output parameters
  passed in and returned explicitly.

C++ `unsigned char` casts are modelled as `% 256`, `unsigned long`
values as `Nat`; machine arithmetic in the modelled expressions never
reaches the 32-bit wrap-around.
-/

namespace NMEA2000Esp32

/-- Result record of `canIdToN2k`'s four by-reference out-parameters
`prio`, `pgn`, `src`, `dst`. -/
structure N2kFields where
  prio : Nat
  pgn : Nat
  src : Nat
  dst : Nat
deriving DecidableEq, Repr

/-- `tNMEA2000_esp32::canIdToN2k` (NMEA2000_esp32.cpp lines 248-269).
`(unsigned char)(id >> k)` is modelled as `(id >>> k) % 256`;
`prio = (unsigned char)((id >> 26) & 0x7)` needs no `% 256` because the
`& 0x7` already bounds it below 256; `src = (unsigned char)id >> 0`
is the low byte shifted by zero, i.e. `id % 256`. -/
def canIdToN2k (id : Nat) : N2kFields :=
  let CanIdPF := (id >>> 16) % 256
  let CanIdPS := (id >>> 8) % 256
  let CanIdDP := ((id >>> 24) % 256) &&& 1
  let src := id % 256
  let prio := (id >>> 26) &&& 0x7
  if CanIdPF < 240 then
    -- PDU1 format, the PS contains the destination address
    { prio := prio, pgn := (CanIdDP <<< 16) ||| (CanIdPF <<< 8), src := src, dst := CanIdPS }
  else
    -- PDU2 format, the destination is implied global and the PGN is extended
    { prio := prio, pgn := (CanIdDP <<< 16) ||| (CanIdPF <<< 8) ||| CanIdPS, src := src, dst := 0xff }

/-- Taking the low byte first does not change bit 0. -/
lemma mod256_and_one (x : Nat) : (x % 256) &&& 1 = x &&& 1 := by
  rw [Nat.and_one_is_mod, Nat.and_one_is_mod]
  omega

/-- The bitwise-or of two numbers below `2 ^ n` stays below `2 ^ n`. -/
lemma or_lt_two_pow' {x y n : Nat} (hx : x < 2 ^ n) (hy : y < 2 ^ n) : x ||| y < 2 ^ n :=
  Nat.or_lt_two_pow hx hy

/-- `% 2 ^ n` distributes over bitwise-or. -/
lemma or_mod_two_pow (a b n : Nat) : (a ||| b) % 2 ^ n = a % 2 ^ n ||| b % 2 ^ n := by
  apply Nat.eq_of_testBit_eq
  intro i
  simp [Nat.testBit_mod_two_pow, Bool.and_or_distrib_left]

/-- A value shifted left by at least `n` bits vanishes modulo `2 ^ n`. -/
lemma shiftLeft_mod_two_pow_eq_zero (x k n : Nat) (h : n ≤ k) : (x <<< k) % 2 ^ n = 0 := by
  rw [Nat.shiftLeft_eq]
  obtain ⟨d, rfl⟩ := Nat.exists_eq_add_of_le h
  have hx : x * 2 ^ (n + d) = x * 2 ^ d * 2 ^ n := by ring
  rw [hx]
  exact Nat.mul_mod_left _ _

/-- Evaluation of `canIdToN2k` on the PDU1 branch (format byte below 240). -/
lemma canIdToN2k_pdu1 (id : Nat) (h : (id >>> 16) % 256 < 240) :
    canIdToN2k id =
      { prio := (id >>> 26) &&& 0x7
        pgn := ((((id >>> 24) % 256) &&& 1) <<< 16) ||| (((id >>> 16) % 256) <<< 8)
        src := id % 256
        dst := (id >>> 8) % 256 } := by
  simp [canIdToN2k, h]

/-- Evaluation of `canIdToN2k` on the PDU2 branch (format byte at least 240). -/
lemma canIdToN2k_pdu2 (id : Nat) (h : ¬ (id >>> 16) % 256 < 240) :
    canIdToN2k id =
      { prio := (id >>> 26) &&& 0x7
        pgn := ((((id >>> 24) % 256) &&& 1) <<< 16) ||| (((id >>> 16) % 256) <<< 8)
                 ||| ((id >>> 8) % 256)
        src := id % 256
        dst := 0xff } := by
  simp [canIdToN2k, h]

/-- C2: for every 29-bit identifier, `canIdToN2k` returns
`prio = (id >>> 26) &&& 7` (hence `prio ≤ 7`) and `src` the low byte of
`id`; when the PDU-format byte `(id >>> 16) % 256` is below 240 the
destination is the PDU-specific byte `(id >>> 8) % 256` and
`pgn = (dataPage <<< 16) ||| (formatByte <<< 8)`; when the format byte
is at least 240 the destination is `0xff` and the PDU-specific byte is
or-ed into `pgn`.  In particular identifier `0x18FEDF00` yields
priority 6, pgn `0xFEDF`, source 0, destination `0xff`. -/
theorem canIdToN2k_routing_fields :
    (∀ id : Nat, id < 2 ^ 29 →
      (canIdToN2k id).prio = (id >>> 26) &&& 7 ∧
      (canIdToN2k id).prio ≤ 7 ∧
      (canIdToN2k id).src = id % 256 ∧
      ((id >>> 16) % 256 < 240 →
        (canIdToN2k id).dst = (id >>> 8) % 256 ∧
        (canIdToN2k id).pgn = (((id >>> 24) &&& 1) <<< 16) ||| (((id >>> 16) % 256) <<< 8)) ∧
      (240 ≤ (id >>> 16) % 256 →
        (canIdToN2k id).dst = 0xff ∧
        (canIdToN2k id).pgn =
          (((id >>> 24) &&& 1) <<< 16) ||| (((id >>> 16) % 256) <<< 8) |||
            ((id >>> 8) % 256))) ∧
    canIdToN2k 0x18FEDF00 = { prio := 6, pgn := 0xFEDF, src := 0x00, dst := 0xff } := by
  constructor
  · intro id _
    by_cases h : (id >>> 16) % 256 < 240
    · rw [canIdToN2k_pdu1 id h]
      refine ⟨rfl, Nat.and_le_right, rfl, fun _ => ⟨rfl, ?_⟩, fun h' => absurd h (by omega)⟩
      rw [mod256_and_one]
    · rw [canIdToN2k_pdu2 id h]
      refine ⟨rfl, Nat.and_le_right, rfl, fun h' => absurd h' h, fun _ => ⟨rfl, ?_⟩⟩
      rw [mod256_and_one]
  · decide

/-- Witness for C2 at the spec's end-to-end identifier `0x18FEDF00`. -/
theorem canIdToN2k_routing_fields_witness :
    (canIdToN2k 0x18FEDF00).prio ≤ 7 ∧ (canIdToN2k 0x18FEDF00).dst = 0xff := by
  have h := canIdToN2k_routing_fields.1 0x18FEDF00 (by decide)
  exact ⟨h.2.1, (h.2.2.2.2 (by decide)).1⟩

/-- C10: for every identifier the returned `pgn` is below `2 ^ 17`, and
on the PDU1 branch (format byte below 240) the low 8 bits of `pgn` are
zero. -/
theorem canIdToN2k_pgn_bound :
    ∀ id : Nat, (canIdToN2k id).pgn < 2 ^ 17 ∧
      ((id >>> 16) % 256 < 240 → (canIdToN2k id).pgn % 256 = 0) := by
  intro id
  have h16 : (2 : Nat) ^ 16 = 65536 := by norm_num
  have h8 : (2 : Nat) ^ 8 = 256 := by norm_num
  have h17 : (2 : Nat) ^ 17 = 131072 := by norm_num
  have hdp : (((id >>> 24) % 256) &&& 1) <<< 16 < 2 ^ 17 := by
    have h1 : ((id >>> 24) % 256) &&& 1 ≤ 1 := Nat.and_le_right
    rw [Nat.shiftLeft_eq, h16, h17]
    omega
  have hpf : ((id >>> 16) % 256) <<< 8 < 2 ^ 17 := by
    rw [Nat.shiftLeft_eq, h8, h17]
    omega
  have hps : (id >>> 8) % 256 < 2 ^ 17 := by
    rw [h17]
    omega
  have hmod : ((((id >>> 24) % 256) &&& 1) <<< 16 ||| (((id >>> 16) % 256) <<< 8)) % 256 = 0 := by
    have h256 : (256 : Nat) = 2 ^ 8 := by norm_num
    rw [h256, or_mod_two_pow, shiftLeft_mod_two_pow_eq_zero _ _ _ (by norm_num),
      shiftLeft_mod_two_pow_eq_zero _ _ _ (le_refl 8)]
    rfl
  by_cases h : (id >>> 16) % 256 < 240
  · rw [canIdToN2k_pdu1 id h]
    exact ⟨or_lt_two_pow' hdp hpf, fun _ => hmod⟩
  · rw [canIdToN2k_pdu2 id h]
    exact ⟨or_lt_two_pow' (or_lt_two_pow' hdp hpf) hps, fun h' => absurd h' h⟩

/-- Witness for C10 at a PDU1 identifier (`0x18EF0100`, format byte
`0xEF` below 240). -/
theorem canIdToN2k_pgn_bound_witness :
    (canIdToN2k 0x18EF0100).pgn < 2 ^ 17 ∧ (canIdToN2k 0x18EF0100).pgn % 256 = 0 := by
  have h := canIdToN2k_pgn_bound 0x18EF0100
  exact ⟨h.1, h.2 (by decide)⟩

/-! ## The open sequence

`tNMEA2000_esp32::CANOpen` (NMEA2000_esp32.cpp lines 69-84) consults
the instance's `IsOpen` member and the process-wide static `CanInUse`
flag; when it goes ahead it sets `IsOpen`, runs `CAN_init` (which
performs the one `twai_driver_install`), copies `IsOpen` into
`CanInUse` and returns `IsOpen`.  We record the number of driver
installations performed so far in `installs`. -/

/-- Return value and state after a `CANOpen` call: `ret` is the boolean
result, `isOpen` the instance's `IsOpen` member, `canInUse` the static
`CanInUse` flag, `installs` the cumulated number of
`twai_driver_install` calls. -/
structure OpenResult where
  ret : Bool
  isOpen : Bool
  canInUse : Bool
  installs : Nat
deriving DecidableEq, Repr

/-- `tNMEA2000_esp32::CANOpen` (NMEA2000_esp32.cpp lines 69-84). -/
def CANOpen (isOpen canInUse : Bool) (installs : Nat) : OpenResult :=
  if isOpen then
    { ret := true, isOpen := isOpen, canInUse := canInUse, installs := installs }
  else if canInUse then
    -- currently prevent accidental second instance
    { ret := false, isOpen := isOpen, canInUse := canInUse, installs := installs }
  else
    -- IsOpen = true; CAN_init() installs and starts the driver; CanInUse = IsOpen
    { ret := true, isOpen := true, canInUse := true, installs := installs + 1 }

/-- C4: when a `CANOpen` call succeeds, a second `CANOpen` on the same
instance also succeeds and changes nothing — in particular the
installation count is unchanged, so no second driver installation is
performed. -/
theorem CANOpen_idempotent (o c : Bool) (n : Nat) (h : (CANOpen o c n).ret = true) :
    CANOpen (CANOpen o c n).isOpen (CANOpen o c n).canInUse (CANOpen o c n).installs =
      { ret := true, isOpen := (CANOpen o c n).isOpen, canInUse := (CANOpen o c n).canInUse,
        installs := (CANOpen o c n).installs } := by
  cases o <;> cases c <;> simp_all [CANOpen]

/-- Witness for C4: a fresh instance on an unclaimed peripheral. -/
theorem CANOpen_idempotent_witness :
    (CANOpen false false 0).ret = true ∧
      CANOpen (CANOpen false false 0).isOpen (CANOpen false false 0).canInUse
          (CANOpen false false 0).installs =
        { ret := true, isOpen := (CANOpen false false 0).isOpen,
          canInUse := (CANOpen false false 0).canInUse,
          installs := (CANOpen false false 0).installs } :=
  ⟨by decide, CANOpen_idempotent false false 0 (by decide)⟩

/-- Process state with two adapter instances A and B sharing the
static `CanInUse` flag and the driver-installation count. -/
structure TwoInstState where
  isOpenA : Bool
  isOpenB : Bool
  canInUse : Bool
  installs : Nat
deriving DecidableEq, Repr

/-- `CANOpen` invoked on instance B of a two-instance process. -/
def CANOpenB (s : TwoInstState) : Bool × TwoInstState :=
  let r := CANOpen s.isOpenB s.canInUse s.installs
  (r.ret, { s with isOpenB := r.isOpen, canInUse := r.canInUse, installs := r.installs })

/-- C5: while instance A holds the peripheral (`CanInUse` set),
`CANOpen` on the not-yet-open instance B fails and leaves the whole
process state — including A's `IsOpen`, the `CanInUse` flag and the
driver-installation count — unchanged. -/
theorem CANOpen_second_instance_fails (s : TwoInstState) (hA : s.isOpenA = true)
    (hU : s.canInUse = true) (hB : s.isOpenB = false) :
    CANOpenB s = (false, s) := by
  cases s
  simp_all [CANOpenB, CANOpen]

/-- Witness for C5: A open and holding the peripheral after one driver
installation, B unopened. -/
theorem CANOpen_second_instance_fails_witness :
    CANOpenB { isOpenA := true, isOpenB := false, canInUse := true, installs := 1 } =
      (false, { isOpenA := true, isOpenB := false, canInUse := true, installs := 1 }) :=
  CANOpen_second_instance_fails _ rfl rfl rfl

/-! ## The transmit path

`tNMEA2000_esp32::CANSendFrame` (NMEA2000_esp32.cpp lines 131-179)
queries the driver status, bails out when the driver is not running,
otherwise builds a `twai_message_t` and queues it with
`twai_transmit`.  The driver's status and the `twai_transmit` result
are inputs of the model; the driver commands issued by the call are
recorded so that theorems can speak about which commands were (not)
issued. -/

/-- The fields of `twai_message_t` this adapter touches. -/
structure TwaiMessage where
  extd : Bool
  identifier : Nat
  data_length_code : Nat
  dlc_non_comp : Bool
  ss : Bool
  /-- the 8-byte `data` array -/
  data : List Nat
deriving DecidableEq, Repr

/-- `twai_state_t` of the peripheral driver. -/
inductive TwaiState where
  | stopped
  | running
  | busOff
  | recovering
deriving DecidableEq, Repr

/-- Driver commands a call may issue (status query, transmit with the
blocking choice, start, bus-recovery initiation). -/
inductive DriverCmd where
  | getStatusInfo
  | transmit (msg : TwaiMessage) (blockForever : Bool)
  | start
  | initiateRecovery
deriving DecidableEq, Repr

/-- `ESP_OK` of `esp_err_t`. -/
def ESP_OK : Int := 0

/-- The `twai_message_t` built by `CANSendFrame` (NMEA2000_esp32.cpp
lines 154-160): `memset` zeroes every field, then `extd = 1`,
`identifier = id`, `data_length_code = len`, `ss = 0`, and
`memcpy(message.data, buf, len)` fills the 8-byte `data` array.  Note
that `len` is **not** clamped to 8 and `dlc_non_comp` stays 0.  The
`data` array holds 8 bytes, so only the first `min len 8` copied bytes
land in it (for `len > 8` the `memcpy` runs past the array; the model
keeps the 8 in-bounds bytes). -/
def mkTxMessage (id len : Nat) (buf : List Nat) : TwaiMessage :=
  { extd := true
    identifier := id
    data_length_code := len
    dlc_non_comp := false
    ss := false
    data := (buf.take (min len 8)) ++ List.replicate (8 - min len 8) 0 }

/-- `tNMEA2000_esp32::CANSendFrame` (NMEA2000_esp32.cpp lines
131-179).  `status` is what `twai_get_status_info` reports and `txRes`
the `esp_err_t` that `twai_transmit` would return; the returned list
is the sequence of driver commands issued. -/
def CANSendFrame (status : TwaiState) (txRes : Int) (id len : Nat) (buf : List Nat)
    (wait_sent : Bool) : Bool × List DriverCmd :=
  if status ≠ TwaiState.running then
    -- "Failed to send CAN Frame: Driver is not in running state" — return false
    (false, [DriverCmd.getStatusInfo])
  else
    let message := mkTxMessage id len buf
    let cmds := [DriverCmd.getStatusInfo, DriverCmd.transmit message wait_sent]
    if txRes = ESP_OK then (true, cmds) else (false, cmds)

/-- Counterexample to C1 as stated: for a send request of length 9 the
frame built by `CANSendFrame` keeps `data_length_code = 9` — the
payload length is not truncated to 8 — and its `dlc_non_comp` flag
stays clear, so the frame is not marked length-non-compliant. -/
theorem mkTxMessage_no_truncation_cex :
    ((mkTxMessage 0x18FEDF00 9 [1, 2, 3, 4, 5, 6, 7, 8, 9]).data_length_code = 9 ∧
      (mkTxMessage 0x18FEDF00 9 [1, 2, 3, 4, 5, 6, 7, 8, 9]).dlc_non_comp = false) ∧
    ¬ ((mkTxMessage 0x18FEDF00 9 [1, 2, 3, 4, 5, 6, 7, 8, 9]).data_length_code = 8 ∧
      (mkTxMessage 0x18FEDF00 9 [1, 2, 3, 4, 5, 6, 7, 8, 9]).dlc_non_comp = true) := by
  decide

/-- C1 amended: `CANSendFrame` with length above 8 copies the length
unchanged into the frame's `data_length_code` (no clamping to 8) and
leaves the `dlc_non_comp` flag clear; the boolean result of the call
does not depend on the length, so the call does not fail merely
because of the over-length request. -/
theorem CANSendFrame_overlength (status : TwaiState) (txRes : Int) (id len len' : Nat)
    (buf : List Nat) (w : Bool) (h : 8 < len) :
    (mkTxMessage id len buf).data_length_code = len ∧
      (mkTxMessage id len buf).dlc_non_comp = false ∧
      (CANSendFrame status txRes id len buf w).1 = (CANSendFrame status txRes id len' buf w).1 := by
  refine ⟨rfl, rfl, ?_⟩
  by_cases hs : status = TwaiState.running <;> by_cases ht : txRes = ESP_OK <;>
    simp [CANSendFrame, hs, ht]

/-- Witness for amended C1: an over-length request of 9 bytes on a
running driver with a successful transmit. -/
theorem CANSendFrame_overlength_witness :
    (8 : Nat) < 9 ∧
      ((mkTxMessage 0 9 [1, 2, 3, 4, 5, 6, 7, 8, 9]).data_length_code = 9 ∧
        (mkTxMessage 0 9 [1, 2, 3, 4, 5, 6, 7, 8, 9]).dlc_non_comp = false ∧
        (CANSendFrame TwaiState.running 0 0 9 [1, 2, 3, 4, 5, 6, 7, 8, 9] true).1 =
          (CANSendFrame TwaiState.running 0 0 8 [1, 2, 3, 4, 5, 6, 7, 8, 9] true).1) :=
  ⟨by decide, CANSendFrame_overlength TwaiState.running 0 0 9 8 [1, 2, 3, 4, 5, 6, 7, 8, 9]
    true (by decide)⟩

/-- Counterexample to C8 as stated: with the driver stopped,
`CANSendFrame` reports failure after the status query alone — it never
issues a `twai_start` or `twai_initiate_recovery` command. -/
theorem CANSendFrame_no_restart_cex :
    (CANSendFrame TwaiState.stopped 0 0x18FEDF00 8 [1, 2, 3, 4, 5, 6, 7, 8] true).1 = false ∧
      DriverCmd.start ∉
        (CANSendFrame TwaiState.stopped 0 0x18FEDF00 8 [1, 2, 3, 4, 5, 6, 7, 8] true).2 ∧
      DriverCmd.initiateRecovery ∉
        (CANSendFrame TwaiState.stopped 0 0x18FEDF00 8 [1, 2, 3, 4, 5, 6, 7, 8] true).2 := by
  decide

/-- C8 amended: when the driver is not in the running state,
`CANSendFrame` inspects the peripheral status, reports the failure as
a boolean `false` result (the function is total, so no exception is
raised) and issues no start or recovery command — the status query is
the only driver interaction. -/
theorem CANSendFrame_not_running (status : TwaiState) (txRes : Int) (id len : Nat)
    (buf : List Nat) (w : Bool) (h : status ≠ TwaiState.running) :
    CANSendFrame status txRes id len buf w = (false, [DriverCmd.getStatusInfo]) ∧
      DriverCmd.start ∉ (CANSendFrame status txRes id len buf w).2 ∧
      DriverCmd.initiateRecovery ∉ (CANSendFrame status txRes id len buf w).2 := by
  simp [CANSendFrame, h]

/-- Witness for amended C8: driver stopped. -/
theorem CANSendFrame_not_running_witness :
    CANSendFrame TwaiState.stopped 0 5 3 [1, 2, 3] false =
        (false, [DriverCmd.getStatusInfo]) ∧
      DriverCmd.start ∉ (CANSendFrame TwaiState.stopped 0 5 3 [1, 2, 3] false).2 ∧
      DriverCmd.initiateRecovery ∉ (CANSendFrame TwaiState.stopped 0 5 3 [1, 2, 3] false).2 :=
  CANSendFrame_not_running TwaiState.stopped 0 5 3 [1, 2, 3] false (by decide)

/-! ## The receive path

`tNMEA2000_esp32::CANGetFrame` (NMEA2000_esp32.cpp lines 182-221)
calls `twai_receive` with the configured wait and, on `ESP_OK` for an
extended frame, copies identifier, length and payload into the three
by-reference out-parameters.  The `twai_receive` outcome is an input
of the model; the out-parameters are passed in with their prior values
and returned, so a theorem can state that they are left untouched. -/

/-- Outcome of the bounded-wait `twai_receive` call: a message within
the wait (`ESP_OK`), a timeout (`ESP_ERR_TIMEOUT`), or another error
code. -/
inductive TwaiRecvRes where
  | ok (message : TwaiMessage)
  | timeout
  | err (code : Int)
deriving DecidableEq, Repr

/-- `tNMEA2000_esp32::CANGetFrame` (NMEA2000_esp32.cpp lines 182-221).
`id0`, `len0`, `buf0` are the prior values of the by-reference
out-parameters; the result is `(boolean result, id, len, buf)` after
the call.  `memcpy(buf, message.data, message.data_length_code)`
overwrites the first `data_length_code` bytes of `buf` and leaves the
rest. -/
def CANGetFrame (recv : TwaiRecvRes) (id0 len0 : Nat) (buf0 : List Nat) :
    Bool × Nat × Nat × List Nat :=
  match recv with
  | TwaiRecvRes.ok message =>
    if message.extd then
      (true, message.identifier, message.data_length_code,
        message.data.take message.data_length_code ++ buf0.drop message.data_length_code)
    else
      -- non-extended frame: drop it and report failure, outputs untouched
      (false, id0, len0, buf0)
  | TwaiRecvRes.timeout =>
    -- ESP_ERR_TIMEOUT: normal "no frame available", outputs untouched
    (false, id0, len0, buf0)
  | TwaiRecvRes.err _ =>
    -- any other failure is logged and reported as failure, outputs untouched
    (false, id0, len0, buf0)

/-- C6: when `twai_receive` times out (no frame available within the
configured wait), `CANGetFrame` returns failure and all three
out-parameters keep their prior values. -/
theorem CANGetFrame_timeout (id0 len0 : Nat) (buf0 : List Nat) :
    CANGetFrame TwaiRecvRes.timeout id0 len0 buf0 = (false, id0, len0, buf0) :=
  rfl

/-- C7: a delivered frame whose extended-format flag is clear is
discarded — `CANGetFrame` returns failure with the out-parameters
untouched — and `CANGetFrame` returns success only when the driver
delivered an extended-format frame. -/
theorem CANGetFrame_extd_only (recv : TwaiRecvRes) (id0 len0 : Nat) (buf0 : List Nat) :
    (∀ message : TwaiMessage, recv = TwaiRecvRes.ok message → message.extd = false →
      CANGetFrame recv id0 len0 buf0 = (false, id0, len0, buf0)) ∧
    ((CANGetFrame recv id0 len0 buf0).1 = true →
      ∃ message : TwaiMessage, recv = TwaiRecvRes.ok message ∧ message.extd = true) := by
  constructor
  · rintro message rfl hext
    simp [CANGetFrame, hext]
  · intro h
    cases recv with
    | ok message =>
      refine ⟨message, rfl, ?_⟩
      by_cases hext : message.extd
      · exact hext
      · simp [CANGetFrame, hext] at h
    | timeout => simp [CANGetFrame] at h
    | err code => simp [CANGetFrame] at h

/-- Witness for C7: a standard-format (11-bit) frame is discarded. -/
theorem CANGetFrame_extd_only_witness :
    CANGetFrame
        (TwaiRecvRes.ok
          { extd := false, identifier := 0x123, data_length_code := 2,
            dlc_non_comp := false, ss := false,
            data := [1, 2, 0, 0, 0, 0, 0, 0] }) 7 7 [9, 9, 9, 9, 9, 9, 9, 9] =
      (false, 7, 7, [9, 9, 9, 9, 9, 9, 9, 9]) :=
  (CANGetFrame_extd_only
      (TwaiRecvRes.ok
        { extd := false, identifier := 0x123, data_length_code := 2,
          dlc_non_comp := false, ss := false,
          data := [1, 2, 0, 0, 0, 0, 0, 0] }) 7 7 [9, 9, 9, 9, 9, 9, 9, 9]).1
    _ rfl rfl

/-! ## Lifetime of the open state

The public interface of `tNMEA2000_esp32` (NMEA2000_esp32.h lines
102-113) consists of the constructor, `CANSendFrame`, `CANOpen`,
`CANGetFrame`, `InitCANFrameBuffers`, `SetAlertsCallback` and
`SetLogLevel`; there is no close/stop operation.  We give the adapter
instance an explicit state and let each public operation act on it.
With statistics disabled (the default, `ESP32_CAN_STATISTICS == 0`)
`CANSendFrame` and `CANGetFrame` write no instance member,
`InitCANFrameBuffers` only delegates to the base class,
`SetAlertsCallback` stores the callback and `SetLogLevel` sets the log
level; only `CANOpen` touches `IsOpen`, `CanInUse` or installs the
driver. -/

/-- Mutable state of one adapter instance together with the
process-wide `CanInUse` flag and driver-installation count. -/
structure InstState where
  isOpen : Bool
  canInUse : Bool
  installs : Nat
  /-- whether `alerts_callback` has been set (`SetAlertsCallback`) -/
  alertsCbSet : Bool
  /-- the log level installed by `SetLogLevel` -/
  logLevel : Nat
deriving DecidableEq, Repr

/-- `CANOpen` acting on an `InstState`. -/
def applyOpen (s : InstState) : Bool × InstState :=
  let r := CANOpen s.isOpen s.canInUse s.installs
  (r.ret, { s with isOpen := r.isOpen, canInUse := r.canInUse, installs := r.installs })

/-- One invocation of a public operation of `tNMEA2000_esp32`,
with the external inputs it consumes.  The type enumerates the whole
public interface: there is no close operation. -/
inductive PubOp where
  | pOpen
  | pSendFrame (status : TwaiState) (txRes : Int) (id len : Nat) (buf : List Nat)
      (waitSent : Bool)
  | pGetFrame (recv : TwaiRecvRes) (id0 len0 : Nat) (buf0 : List Nat)
  | pInitCANFrameBuffers
  | pSetAlertsCallback
  | pSetLogLevel (level : Nat)

/-- Effect of one public operation on the instance state.
`CANSendFrame` and `CANGetFrame` read driver state and build/copy
frames but (with statistics disabled) write no instance member. -/
def stepOp (s : InstState) : PubOp → InstState
  | PubOp.pOpen => (applyOpen s).2
  | PubOp.pSendFrame _ _ _ _ _ _ => s
  | PubOp.pGetFrame _ _ _ _ => s
  | PubOp.pInitCANFrameBuffers => s
  | PubOp.pSetAlertsCallback => { s with alertsCbSet := true }
  | PubOp.pSetLogLevel level => { s with logLevel := level }

/-- A sequence of public operations, applied left to right. -/
def runOps (s : InstState) : List PubOp → InstState
  | [] => s
  | op :: ops => runOps (stepOp s op) ops

/-- A freshly constructed, never-opened instance on an unclaimed
peripheral (the constructor sets `IsOpen` to `false` and the static
`CanInUse` initialiser is `false`, NMEA2000_esp32.cpp lines 57 and
62-66). -/
def freshState (cb : Bool) (lvl : Nat) : InstState :=
  { isOpen := false, canInUse := false, installs := 0, alertsCbSet := cb, logLevel := lvl }

/-- The state right after a successful first `CANOpen`. -/
def openedState (cb : Bool) (lvl : Nat) : InstState :=
  { isOpen := true, canInUse := true, installs := 1, alertsCbSet := cb, logLevel := lvl }

/-- One public operation never clears `IsOpen` or `CanInUse` and never
installs the driver again once both flags are set. -/
lemma stepOp_preserves_open (s : InstState) (op : PubOp) (hO : s.isOpen = true)
    (hU : s.canInUse = true) :
    (stepOp s op).isOpen = true ∧ (stepOp s op).canInUse = true ∧
      (stepOp s op).installs = s.installs := by
  cases op <;> simp_all [stepOp, applyOpen, CANOpen]

/-- `stepOp_preserves_open`, folded over a list of operations. -/
lemma runOps_preserves_open (ops : List PubOp) : ∀ s : InstState, s.isOpen = true →
    s.canInUse = true →
    (runOps s ops).isOpen = true ∧ (runOps s ops).canInUse = true ∧
      (runOps s ops).installs = s.installs := by
  induction ops with
  | nil => exact fun s hO hU => ⟨hO, hU, rfl⟩
  | cons op ops ih =>
    intro s hO hU
    obtain ⟨h1, h2, h3⟩ := stepOp_preserves_open s op hO hU
    obtain ⟨g1, g2, g3⟩ := ih (stepOp s op) h1 h2
    exact ⟨g1, g2, by rw [runOps, g3, h3]⟩

/-- C9: opening a fresh instance on an unclaimed peripheral succeeds
and yields `IsOpen = CanInUse = true` with one driver installation;
after that, no sequence of public operations (there is no close
operation) ever clears either flag or installs the driver again, and
`CANOpen` called again at any such point returns `true` and changes
nothing. -/
theorem CANOpen_state_persists (cb : Bool) (lvl : Nat) (ops : List PubOp) :
    applyOpen (freshState cb lvl) = (true, openedState cb lvl) ∧
    (runOps (openedState cb lvl) ops).isOpen = true ∧
    (runOps (openedState cb lvl) ops).canInUse = true ∧
    (runOps (openedState cb lvl) ops).installs = 1 ∧
    applyOpen (runOps (openedState cb lvl) ops) =
      (true, runOps (openedState cb lvl) ops) := by
  obtain ⟨h1, h2, h3⟩ := runOps_preserves_open ops (openedState cb lvl) rfl rfl
  refine ⟨rfl, h1, h2, h3, ?_⟩
  simp only [applyOpen, CANOpen, h1, if_true]
  rw [← h1]

end NMEA2000Esp32
